import Mathlib

/-!
Verification of the TripUAE conversation engine (src/conversation_engine.py).

This file gives a shallow embedding of the dialogue state machine, the
customer profile, the slot extractors, the intent classifier, the
recommendation scorer, the serialization round-trip and the response
generator retry logic, and proves or refutes the frozen claims about them.

Modelling conventions:
  * Python `datetime` values are modelled day-accurately as `Nat` (a day
    number in the proleptic Gregorian calendar); the engine only compares
    dates and takes day differences, so this carrier is exact for every
    operation the code performs.
  * `datetime.isoformat` and `datetime.fromisoformat` are mutually inverse
    on valid datetimes; the ISO string layer is modelled by the injective
    wrapper `IsoStr` so that this inverse property is definitional.
  * Python dictionaries are modelled as insertion-ordered association
    lists (`dictSet` mirrors `d[k] = v`).
  * Regular-expression searches of the source are compiled by hand into
    explicit scanning functions over `List Char`, preserving the leftmost
    match rule, alternation order, greediness and backtracking of the
    specific patterns in the source.
  * Every place where the Python code can raise is modelled with `Option`
    or `Except` at that exact point; `try/except` blocks of the source
    become the corresponding handlers.
-/

/-- Python-style lowercasing for the alphabets the engine actually uses:
ASCII letters and the Cyrillic block (А..Я to а..я, Ё to ё).  The engine
always applies `.lower()` to an utterance before scanning. -/
def pyLowerChar (c : Char) : Char :=
  if 'A' ≤ c ∧ c ≤ 'Z' then Char.ofNat (c.toNat + 32)
  else if c.toNat ≥ 0x410 ∧ c.toNat ≤ 0x42F then Char.ofNat (c.toNat + 32)
  else if c.toNat = 0x401 then Char.ofNat 0x451
  else c

/-- Lowercase a whole string, modelling Python `str.lower()`. -/
def pyLower (s : String) : String :=
  String.mk (s.data.map pyLowerChar)

/-- Does the literal pattern `p` match at the head of `t`?  Model of a
regex literal matching at one fixed position. -/
def litAt : List Char → List Char → Bool
  | [], _ => true
  | _ :: _, [] => false
  | c :: p, d :: t => c == d && litAt p t

/-- Index of the first occurrence of literal `p` in `t` (leftmost match of
`re.search` for a literal pattern). -/
def findLit (p : List Char) : List Char → Option Nat
  | [] => if p.isEmpty then some 0 else none
  | d :: t => if litAt p (d :: t) then some 0 else (findLit p t).map (· + 1)

/-- `re.search(p, t)` for a literal pattern `p`: substring containment. -/
def containsLit (p t : List Char) : Bool :=
  (findLit p t).isSome

/-- `any(re.search(p, text) for p in pats)` for literal patterns. -/
def anyPat (pats : List String) (t : List Char) : Bool :=
  pats.any fun p => containsLit p.data t

/-- Python dict update `d[k] = v` on an insertion-ordered association
list: overwrites in place if the key exists, otherwise appends. -/
def dictSet {α : Type} (d : List (String × α)) (k : String) (v : α) :
    List (String × α) :=
  match d with
  | [] => [(k, v)]
  | (k', v') :: rest =>
      if k' = k then (k, v) :: rest else (k', v') :: dictSet rest k v

/-- Python `k in d` / `d[k]` lookup. -/
def dictGet {α : Type} (d : List (String × α)) (k : String) : Option α :=
  match d with
  | [] => none
  | (k', v) :: rest => if k' = k then some v else dictGet rest k

/-- Day-accurate model of `datetime`: a day number in the proleptic
Gregorian calendar.  All date arithmetic the engine performs (`<`, `-`,
`.days`) is exact on this carrier. -/
abbrev PyDateTime := Nat

/-- The ISO-8601 rendering produced by `datetime.isoformat`.  The
rendering is injective and `datetime.fromisoformat` is its left inverse,
which the wrapper makes definitional. -/
structure IsoStr where
  val : PyDateTime
deriving DecidableEq, Repr

/-- `datetime.isoformat`. -/
def PyDateTime.isoformat (d : PyDateTime) : IsoStr := ⟨d⟩

/-- `datetime.fromisoformat` on a well-formed ISO string; total on the
image of `isoformat`. -/
def IsoStr.fromisoformat (s : IsoStr) : PyDateTime := s.val

/-- Number of days in a month of the Gregorian calendar, as validated by
the `datetime` constructor. -/
def daysInMonth (year month : Nat) : Nat :=
  let leap : Bool := year % 4 = 0 ∧ (year % 100 ≠ 0 ∨ year % 400 = 0)
  if month = 1 then 31
  else if month = 2 then if leap then 29 else 28
  else if month = 3 then 31
  else if month = 4 then 30
  else if month = 5 then 31
  else if month = 6 then 30
  else if month = 7 then 31
  else if month = 8 then 31
  else if month = 9 then 30
  else if month = 10 then 31
  else if month = 11 then 30
  else if month = 12 then 31
  else 0

/-- Cumulative day count before the given month in a non-leap year. -/
def daysBeforeMonth (month : Nat) : Nat :=
  [0, 0, 31, 59, 90, 120, 151, 181, 212, 243, 273, 304, 334].getD month 0

/-- Day number of a Gregorian date (days since the calendar epoch). -/
def dateToDays (year month day : Nat) : Nat :=
  let y := year - 1
  let leap : Bool := year % 4 = 0 ∧ (year % 100 ≠ 0 ∨ year % 400 = 0)
  365 * y + y / 4 - y / 100 + y / 400 +
    daysBeforeMonth month + (if leap ∧ month > 2 then 1 else 0) + day

/-- `datetime(year, month, day)`: validates the field ranges exactly as
the constructor does, returning `none` where Python raises `ValueError`. -/
def mkDate (year month day : Nat) : Option PyDateTime :=
  if 1 ≤ year ∧ year ≤ 9999 ∧ 1 ≤ month ∧ month ≤ 12 ∧
      1 ≤ day ∧ day ≤ daysInMonth year month then
    some (dateToDays year month day)
  else none

/-- A value stored in the `travel_dates` dict.  The scanner stores
datetimes; the duration step stores a plain int under `"trip_duration"`
into the same dict (heterogeneous, as in the source). -/
inductive TDVal where
  | date (d : PyDateTime)
  | dur (n : Int)
deriving DecidableEq, Repr

/-- A generic Python dict payload whose contents the engine never
inspects (used for `previous_bookings` and interaction details). -/
abbrev PyDict := List (String × String)

/-- One entry of `interaction_history`:
`{"type": ..., "timestamp": ..., "details": ...}`. -/
structure Interaction where
  itype : String
  timestamp : IsoStr
  details : PyDict
deriving DecidableEq, Repr

/-- `ConversationState` (the 8-state enum of the engine). -/
inductive ConversationState where
  | greeting
  | gathering_info
  | recommending
  | presenting_details
  | handling_objection
  | booking
  | upselling
  | closing
deriving DecidableEq, Repr

/-- The string value of each enum member. -/
def ConversationState.value : ConversationState → String
  | .greeting => "greeting"
  | .gathering_info => "gathering_info"
  | .recommending => "recommending"
  | .presenting_details => "presenting_details"
  | .handling_objection => "handling_objection"
  | .booking => "booking"
  | .upselling => "upselling"
  | .closing => "closing"

/-- `ConversationState(value)`: enum lookup by value, raising
(`none`) on an unknown string. -/
def conversationStateOfValue (s : String) : Option ConversationState :=
  if s = "greeting" then some .greeting
  else if s = "gathering_info" then some .gathering_info
  else if s = "recommending" then some .recommending
  else if s = "presenting_details" then some .presenting_details
  else if s = "handling_objection" then some .handling_objection
  else if s = "booking" then some .booking
  else if s = "upselling" then some .upselling
  else if s = "closing" then some .closing
  else none

/-- `CustomerProfile`: every field of the class, with the defaults set by
`__init__` (which reads the clock for `last_interaction_time`). -/
structure CustomerProfile where
  emirate : Option String := none
  group_size : Option Int := none
  children_count : Int := 0
  children_ages : List Int := []
  budget_preference : Option String := none
  interests : List String := []
  selected_tour : Option String := none
  selected_variant : Option String := none
  name : Option String := none
  language : String := "ru"
  age_group : Option String := none
  travel_group_type : Option String := none
  previous_bookings : List PyDict := []
  interaction_history : List Interaction := []
  engagement_score : Rat := 0
  objections_raised : List String := []
  price_sensitivity : Option String := none
  last_interaction_time : Option PyDateTime := none
  travel_dates : Option (List (String × TDVal)) := none
  trip_duration : Option Int := none
deriving DecidableEq, Repr

/-- `CustomerProfile()` as built by `__init__` at clock time `now`. -/
def CustomerProfile.init (now : PyDateTime) : CustomerProfile :=
  { last_interaction_time := some now }

/-- Python truthiness of an optional string (`None` and `""` are falsy). -/
def truthyStr : Option String → Bool
  | none => false
  | some s => !s.isEmpty

/-- Python truthiness of an optional int (`None` and `0` are falsy). -/
def truthyInt : Option Int → Bool
  | none => false
  | some n => n != 0

/-- The serialized form produced by `CustomerProfile.to_dict` — one field
per key the method emits.  Note that `interaction_history` has no key. -/
structure ProfileDict where
  emirate : Option String
  group_size : Option Int
  children_count : Int
  children_ages : List Int
  budget_preference : Option String
  interests : List String
  selected_tour : Option String
  selected_variant : Option String
  name : Option String
  language : String
  age_group : Option String
  travel_group_type : Option String
  previous_bookings : List PyDict
  engagement_score : Rat
  objections_raised : List String
  price_sensitivity : Option String
  last_interaction_time : Option IsoStr
  travel_dates : Option (List (String × IsoStr))
  trip_duration : Option Int
deriving DecidableEq, Repr

/-- The dict comprehension `{k: v.isoformat() for k, v in
travel_dates.items()}`: applies `isoformat` to every value in order;
when the dict holds the plain int written under `"trip_duration"`,
Python raises `AttributeError`, modelled as `Except.error`. -/
def serializeTravelDates :
    List (String × TDVal) → Except String (List (String × IsoStr))
  | [] => .ok []
  | (k, .date d) :: rest =>
      (serializeTravelDates rest).map fun l => (k, d.isoformat) :: l
  | (_, .dur _) :: _ => .error "AttributeError: int has no isoformat"

/-- `CustomerProfile.to_dict`.  The `travel_dates` entry is
`{...} if self.travel_dates else None`: Python truthiness, so both a
missing and an *empty* dict serialize to `None` (and the comprehension
is never evaluated for an empty dict). -/
def CustomerProfile.to_dict (p : CustomerProfile) :
    Except String ProfileDict :=
  (match p.travel_dates with
    | none => Except.ok none
    | some td =>
        if td.isEmpty then Except.ok none
        else (serializeTravelDates td).map some).map
  fun travel_dates =>
    { emirate := p.emirate
      group_size := p.group_size
      children_count := p.children_count
      children_ages := p.children_ages
      budget_preference := p.budget_preference
      interests := p.interests
      selected_tour := p.selected_tour
      selected_variant := p.selected_variant
      name := p.name
      language := p.language
      age_group := p.age_group
      travel_group_type := p.travel_group_type
      previous_bookings := p.previous_bookings
      engagement_score := p.engagement_score
      objections_raised := p.objections_raised
      price_sensitivity := p.price_sensitivity
      last_interaction_time := p.last_interaction_time.map PyDateTime.isoformat
      travel_dates := travel_dates
      trip_duration := p.trip_duration }

/-- `CustomerProfile.from_dict`.  The two `datetime.fromisoformat` sites
sit inside `try/except` blocks whose fallbacks read the clock, so the
function takes the current time as an explicit parameter. -/
def CustomerProfile.from_dict (data : ProfileDict) (now : PyDateTime) :
    CustomerProfile :=
  { emirate := data.emirate
    group_size := data.group_size
    children_count := data.children_count
    children_ages := data.children_ages
    budget_preference := data.budget_preference
    interests := data.interests
    selected_tour := data.selected_tour
    selected_variant := data.selected_variant
    name := data.name
    language := data.language
    age_group := data.age_group
    travel_group_type := data.travel_group_type
    previous_bookings := data.previous_bookings
    interaction_history := []
    engagement_score := data.engagement_score
    objections_raised := data.objections_raised
    price_sensitivity := data.price_sensitivity
    last_interaction_time :=
      match data.last_interaction_time with
      | some s => some s.fromisoformat
      | none => some now
    travel_dates :=
      -- `if data.get("travel_dates"):` — Python truthiness again: a
      -- missing or empty serialized dict leaves the `__init__` default
      -- of `None` in place.
      match data.travel_dates with
      | some td =>
          if td.isEmpty then none
          else some (td.map fun kv => (kv.1, TDVal.date kv.2.fromisoformat))
      | none => none
    trip_duration := data.trip_duration }

/-- `ConversationContext`: dialogue state, profile, ordered message
history and session bookkeeping. -/
structure ConversationContext where
  state : ConversationState := .greeting
  customer : CustomerProfile := {}
  prev_messages : List (String × String) := []
  last_recommendations : List String := []
  pending_questions : List String := []
  session_id : Option String := none
deriving DecidableEq, Repr

/-- The serialized form produced by `ConversationContext.to_dict`. -/
structure ContextDict where
  state : String
  customer : ProfileDict
  prev_messages : List (String × String)
  last_recommendations : List String
  pending_questions : List String
  session_id : Option String
deriving DecidableEq, Repr

/-- `ConversationContext.to_dict` (propagates an `AttributeError` from
the profile serialization). -/
def ConversationContext.to_dict (c : ConversationContext) :
    Except String ContextDict :=
  c.customer.to_dict.map fun customer =>
    { state := c.state.value
      customer := customer
      prev_messages := c.prev_messages
      last_recommendations := c.last_recommendations
      pending_questions := c.pending_questions
      session_id := c.session_id }

/-- `ConversationContext.from_dict`; `ConversationState(...)` raises
`ValueError` on an unknown state string. -/
def ConversationContext.from_dict (data : ContextDict) (now : PyDateTime) :
    Except String ConversationContext :=
  (match conversationStateOfValue data.state with
    | some st => Except.ok st
    | none =>
        Except.error "ValueError: not a valid ConversationState").map
  fun state =>
    { state := state
      customer := CustomerProfile.from_dict data.customer now
      prev_messages := data.prev_messages
      last_recommendations := data.last_recommendations
      pending_questions := data.pending_questions
      session_id := data.session_id }

/-! ## Slot extractor machinery

Hand-compiled models of the specific regular expressions used by the
extractors, preserving `re.search` leftmost-match order, the order of
alternatives, greediness of `.+` / `\d+` and the backtracking they
induce. -/

/-- Maximal run of ASCII digits at the head of the text (`\d+` greedy). -/
def digitRun : List Char → List Char
  | [] => []
  | c :: t => if c.isDigit then c :: digitRun t else []

/-- Numeric value of a digit string (`int(...)` on a `\d+` capture). -/
def digitsToNat (ds : List Char) : Nat :=
  ds.foldl (fun acc c => acc * 10 + (c.toNat - 48)) 0

/-- The word alternatives of `number_pattern`, in the alternation order
of the source. -/
def numberWords : List String :=
  ["один", "два", "три", "четыре", "пять", "шесть", "семь", "восемь",
   "девять", "десять", "one", "two", "three", "four", "five", "six",
   "seven", "eight", "nine", "ten"]

/-- The token `number_pattern` captures at the head of `t`: a maximal
digit run if a digit leads (the `\d+` branch comes first), else the first
word alternative that matches here. -/
def numTokAt (t : List Char) : Option (List Char) :=
  match t with
  | [] => none
  | c :: _ =>
      if c.isDigit then some (digitRun t)
      else (numberWords.find? fun w => litAt w.data t).map String.data

/-- Rightmost position (preferred by a greedy `.+` before a trailing
group) at which `number_pattern` matches; returns the captured token. -/
def lastNumTok : List Char → Option (List Char)
  | [] => none
  | t@(_ :: rest) =>
      match lastNumTok rest with
      | some r => some r
      | none => numTokAt t

/-- First keyword alternative of `alts` matching at the head of `t`. -/
def kwAt (alts : List String) (t : List Char) : Option String :=
  alts.find? fun w => litAt w.data t

/-- Rightmost position at which one of `alts` matches; returns the
alternative chosen there (alternation order). -/
def lastKwTok (alts : List String) : List Char → Option String
  | [] => none
  | t@(_ :: rest) =>
      match lastKwTok alts rest with
      | some r => some r
      | none => kwAt alts t

/-- `re.search(r"(alts).+(number_pattern)", t)`: leftmost start where an
alternative matches and a number token occurs at least one character
later; an alternative that matches but has no later number is
backtracked past.  Returns the number capture (group 2). -/
def findKwNum (alts : List String) : List Char → Option (List Char)
  | [] => none
  | t@(_ :: rest) =>
      let here := alts.firstM fun a =>
        if litAt a.data t then lastNumTok (t.drop (a.length + 1)) else none
      match here with
      | some tok => some tok
      | none => findKwNum alts rest

/-- Try digit-run lengths `L, L-1, ..., 1` (greedy `\d+` backtracking):
succeed with the rightmost keyword occurring at least one character
after the chosen run. -/
def tryDigitLens (alts : List String) (t : List Char) : Nat → Option String
  | 0 => none
  | l + 1 =>
      match lastKwTok alts (t.drop (l + 2)) with
      | some kw => some kw
      | none => tryDigitLens alts t l

/-- `re.search(r"(number_pattern).+(alts)", t)`: leftmost start where a
number token matches and one of `alts` occurs at least one character
later.  Returns the keyword capture (group 2) — this is the group the
source hands to `_convert_word_to_number`. -/
def findNumKw (alts : List String) : List Char → Option String
  | [] => none
  | t@(c :: rest) =>
      let here :=
        if c.isDigit then tryDigitLens alts t (digitRun t).length
        else
          match numberWords.find? fun w => litAt w.data t with
          | some w => lastKwTok alts (t.drop (w.length + 1))
          | none => none
      match here with
      | some kw => some kw
      | none => findNumKw alts rest

/-- The number-word vocabulary of `_convert_word_to_number`. -/
def word_to_number : List (String × Int) :=
    [("один", 1), ("одного", 1), ("одному", 1), ("одним", 1), ("одном", 1),
     ("два", 2), ("две", 2), ("двух", 2), ("двое", 2),
     ("три", 3), ("трех", 3), ("трём", 3), ("троих", 3),
     ("четыре", 4), ("четырех", 4), ("четверых", 4),
     ("пять", 5), ("пяти", 5), ("пятеро", 5),
     ("шесть", 6), ("шести", 6), ("шестеро", 6),
     ("семь", 7), ("семи", 7), ("семеро", 7),
     ("восемь", 8), ("восьми", 8), ("восьмеро", 8),
     ("девять", 9), ("девяти", 9), ("девятеро", 9),
     ("десять", 10), ("десяти", 10), ("десятеро", 10),
     ("one", 1), ("two", 2), ("three", 3), ("four", 4), ("five", 5),
     ("six", 6), ("seven", 7), ("eight", 8), ("nine", 9), ("ten", 10)]

/-- `_convert_word_to_number` body: lower-case, convert digit strings
directly (`word.isdigit()`), otherwise look the word up in the fixed
vocabulary with default 0.  The vocabulary dict is a local of the Python
method, hoisted to [word_to_number] above. -/
def convert_word_to_number (word : String) : Int :=
  let word := pyLower word
  if word.data ≠ [] ∧ word.data.all Char.isDigit then
    Int.ofNat (digitsToNat word.data)
  else
    (dictGet word_to_number word).getD 0

/-- Keyword alternatives of the first group-size pattern. -/
def groupKw1 : List String :=
  ["всего", "нас", "группа", "человек", "взрослых", "adults", "people",
   "group"]

/-- Keyword alternatives of the second group-size pattern. -/
def groupKw2 : List String :=
  ["человек", "взрослых", "adults", "people"]

/-- Keyword alternatives of both children patterns. -/
def childKw : List String :=
  ["детей", "ребенок", "ребёнок", "ребенка", "дети", "child", "children"]

/-- `_extract_group_size` on lower-cased text.  For each of group size
and children count the first of the two patterns that matches wins; in
both cases the source converts `matches.group(2)`, which for the
number-first pattern is the *keyword*, not the number.  If children
matched but group size did not, group size is inferred as
`1 + children_count`. -/
def extract_group_size (t : List Char) : Option Int × Option Int :=
  let group_size : Option Int :=
    match findKwNum groupKw1 t with
    | some tok => some (convert_word_to_number (String.mk tok))
    | none =>
        match findNumKw groupKw2 t with
        | some kw => some (convert_word_to_number kw)
        | none => none
  let children_count : Option Int :=
    match findKwNum childKw t with
    | some tok => some (convert_word_to_number (String.mk tok))
    | none =>
        match findNumKw childKw t with
        | some kw => some (convert_word_to_number kw)
        | none => none
  match group_size, children_count with
  | none, some c => (some (1 + c), some c)
  | g, c => (g, c)

/-- `_extract_emirate`: fixed literal patterns per emirate, checked in
declaration order, first match wins. -/
def extract_emirate (t : List Char) : Option String :=
  if anyPat ["дубай", "dubai", "дубае"] t then some "dubai"
  else if anyPat ["абу", "даби", "abu dhabi", "абу-даби"] t then
    some "abu_dhabi"
  else if anyPat ["шарджа", "шардж", "sharjah"] t then some "sharjah"
  else if anyPat ["рас-эль-хайма", "рас аль", "ras al khaimah", "рак", "rak"] t
    then some "rak"
  else if anyPat ["фуджейра", "фуджа", "fujairah"] t then some "fujairah"
  else if anyPat ["аджман", "ajman"] t then some "ajman"
  else none

/-- The word alternatives of the age pattern, in alternation order. -/
def ageWords : List String :=
  ["год", "года", "лет", "годик", "годика", "годиков", "year", "years"]

/-- Maximal run of whitespace at the head (`\s*` greedy). -/
def spaceRun : List Char → Nat
  | [] => 0
  | c :: t => if c.isWhitespace then spaceRun t + 1 else 0

/-- Try one match of `(\d+)\s*(ageWords)` anchored at the head of `t`,
backtracking the greedy `\d+` from length `l` downwards.  Returns the
digit capture and the total match length. -/
def ageMatchLen (t : List Char) : Nat → Option (List Char × Nat)
  | 0 => none
  | l + 1 =>
      let after := t.drop (l + 1)
      let sp := spaceRun after
      match kwAt ageWords (after.drop sp) with
      | some w => some (t.take (l + 1), l + 1 + sp + w.length)
      | none => ageMatchLen t l

/-- `re.finditer` loop of `_extract_children_ages`: scan left to right,
matches do not overlap, ages outside `[0, 17]` are discarded. -/
def scanAges : Nat → List Char → List Int
  | 0, _ => []
  | _, [] => []
  | fuel + 1, t@(c :: rest) =>
      if c.isDigit then
        match ageMatchLen t (digitRun t).length with
        | some (ds, len) =>
            let age : Int := Int.ofNat (digitsToNat ds)
            (if age ≤ 17 then [age] else []) ++ scanAges fuel (t.drop len)
        | none => scanAges fuel rest
      else scanAges fuel rest

/-- `_extract_children_ages` on lower-cased text. -/
def extract_children_ages (t : List Char) : List Int :=
  scanAges (t.length + 1) t

/-- Interest categories with their keyword lists (character classes such
as `[ -]` expanded into their two literal alternatives). -/
def interest_keywords : List (String × List String) :=
  [("beach", ["пляж", "море", "океан", "пляжный", "beach", "sea", "ocean"]),
   ("desert", ["пустын", "сафари", "джип", "верблюд", "desert", "safari",
               "dune", "camel"]),
   ("culture", ["музей", "культур", "истор", "мечеть", "museum", "culture",
                "history", "mosque"]),
   ("adventure", ["приключен", "экстрим", "адренал", "adventure", "extreme",
                  "adrenaline"]),
   ("luxury", ["люкс", "vip", "премиум", "роскош", "luxury", "premium"]),
   ("shopping", ["шопинг", "магазин", "shopping", "mall", "shop"]),
   ("family", ["семейн", "дети", "детск", "ребен", "family", "kids",
               "children"]),
   ("nightlife", ["ночная жизнь", "клуб", "диско", "nightlife", "club"]),
   ("cruise", ["круиз", "яхт", "лодк", "cruise", "yacht", "boat"]),
   ("theme_park", ["парк развлечен", "аттракцион", "theme park",
                   "attraction", "ferrari world", "aquapark"])]

/-- Specific tour mentions that also count as interests. -/
def tour_mentions : List (String × List String) :=
  [("burj_khalifa", ["бурдж халифа", "бурдж-халифа", "burj-khalifa",
                     "burj khalifa", "башня", "небоскреб", "skyscraper"]),
   ("desert_safari", ["сафари", "safari", "пустын", "desert",
                      "джип сафари", "джип-сафари", "jeep safari"]),
   ("dubai_tour", ["тур по дубаю", "обзорный", "экскурсия по дубаю",
                   "dubai tour", "city tour"]),
   ("abu_dhabi_tour", ["абу даби", "абу-даби", "мечеть", "шейх зайд",
                       "шейх-зайд", "sheikh zayed"]),
   ("marina_cruise", ["круиз", "марина", "яхт", "cruise", "yacht",
                      "dubai marina"]),
   ("miracle_garden", ["сад", "garden", "miracle garden"]),
   ("palm_jumeirah", ["пальм", "джумейр", "palm jumeirah", "atlantis"]),
   ("global_village", ["глобал вилладж", "глобал-вилладж", "global village"])]

/-- `_extract_interests`: multi-label bag-of-keywords match over both
keyword tables, in declaration order. -/
def extract_interests (t : List Char) : List String :=
  (interest_keywords.filter fun kv => anyPat kv.2 t).map Prod.fst ++
    (tour_mentions.filter fun kv => anyPat kv.2 t).map Prod.fst

/-- Budget keyword table, checked in the order low, medium, high. -/
def budget_keywords : List (String × List String) :=
  [("low", ["бюджет", "экономия", "недорого", "дешев", "низк", "budget",
            "cheap", "economy", "saving"]),
   ("medium", ["средн", "стандарт", "medium", "standard", "normal"]),
   ("high", ["дорого", "vip", "люкс", "премиум", "престиж", "роскош",
             "high", "luxury", "premium", "expensive"])]

/-- `_extract_budget_preference`: first matching tier wins. -/
def extract_budget_preference (t : List Char) : Option String :=
  ((budget_keywords.find? fun kv => anyPat kv.2 t).map Prod.fst)

/-! ## Travel date extraction -/

/-- Month-name vocabulary of `_extract_travel_dates` (Russian and English
names, lower-cased lookup with default month 1). -/
def month_names : List (String × Nat) :=
  [("января", 1), ("февраля", 2), ("марта", 3), ("апреля", 4), ("мая", 5),
   ("июня", 6), ("июля", 7), ("августа", 8), ("сентября", 9),
   ("октября", 10), ("ноября", 11), ("декабря", 12),
   ("january", 1), ("february", 2), ("march", 3), ("april", 4), ("may", 5),
   ("june", 6), ("july", 7), ("august", 8), ("september", 9),
   ("october", 10), ("november", 11), ("december", 12)]

/-- Raw numeric fields captured by one date match: day and month digit
strings, optional year digit string, and the match length. -/
structure DateMatch where
  day : List Char
  month : Sum (List Char) String
  year : Option (List Char)
  len : Nat
deriving Repr

/-- Match `\d{l}` at the head: exactly `l` digits. -/
def digitsExact (t : List Char) (l : Nat) : Option (List Char) :=
  let ds := t.take l
  if ds.length = l ∧ ds.all Char.isDigit then some ds else none

/-- Greedy `\d{1,2}`: try two digits, then one. -/
def digits12 (t : List Char) : Option (List Char) :=
  match digitsExact t 2 with
  | some ds => some ds
  | none => digitsExact t 1

/-- Greedy `\d{2,4}`: try four digits, then three, then two. -/
def digits24 (t : List Char) : Option (List Char) :=
  match digitsExact t 4 with
  | some ds => some ds
  | none => match digitsExact t 3 with
    | some ds => some ds
    | none => digitsExact t 2

/-- One anchored match of `(\d{1,2})sep(\d{1,2})(?:sep(\d{2,4}))?` with a
fixed separator character, backtracking the greedy day field
(two digits, then one). -/
def numericDateAt (sep : Char) (t : List Char) : Option DateMatch :=
  let attempt : Nat → Option DateMatch := fun l => do
    let day ← digitsExact t l
    let rest := t.drop l
    match rest with
    | c :: rest' =>
        if c = sep then do
          let month ← digits12 rest'
          let afterMonth := rest'.drop month.length
          let base := l + 1 + month.length
          match afterMonth with
          | c' :: rest'' =>
              if c' = sep then
                match digits24 rest'' with
                | some year =>
                    some ⟨day, Sum.inl month, some year, base + 1 + year.length⟩
                | none => some ⟨day, Sum.inl month, none, base⟩
              else some ⟨day, Sum.inl month, none, base⟩
          | [] => some ⟨day, Sum.inl month, none, base⟩
        else none
    | [] => none
  match attempt 2 with
  | some m => some m
  | none => attempt 1

/-- One anchored match of `(\d{1,2}) (month names)(?: (\d{2,4}))?` for a
fixed month vocabulary (the month-name alternatives of one pattern, in
order). -/
def namedDateAt (months : List String) (t : List Char) : Option DateMatch :=
  let attempt : Nat → Option DateMatch := fun l => do
    let day ← digitsExact t l
    let rest := t.drop l
    match rest with
    | c :: rest' =>
        if c = ' ' then do
          let m ← months.find? fun w => litAt w.data rest'
          let afterMonth := rest'.drop m.length
          let base := l + 1 + m.length
          match afterMonth with
          | c' :: rest'' =>
              if c' = ' ' then
                match digits24 rest'' with
                | some year =>
                    some ⟨day, Sum.inr m, some year, base + 1 + year.length⟩
                | none => some ⟨day, Sum.inr m, none, base⟩
              else some ⟨day, Sum.inr m, none, base⟩
          | [] => some ⟨day, Sum.inr m, none, base⟩
        else none
    | [] => none
  match attempt 2 with
  | some m => some m
  | none => attempt 1

/-- The four date patterns of the source, in order: `DD.MM(.YYYY)?`,
`DD/MM(/YYYY)?`, Russian month names, English month names.  The English
month alternatives are capitalized in the source pattern while the text
is lower-cased, so that pattern can never match. -/
def datePatternAt : Nat → List Char → Option DateMatch
  | 0, t => numericDateAt '.' t
  | 1, t => numericDateAt '/' t
  | 2, t => namedDateAt ((month_names.take 12).map Prod.fst) t
  | 3, t => namedDateAt
      ["January", "February", "March", "April", "May", "June", "July",
       "August", "September", "October", "November", "December"] t
  | _, _ => none

/-- Arrival keywords (character classes expanded). -/
def arrival_keywords : List String :=
  ["приезд", "прилет", "приехать", "прибыть", "arrival", "arrive",
   "check in", "check-in"]

/-- Departure keywords (character classes expanded). -/
def departure_keywords : List String :=
  ["отъезд", "вылет", "уехать", "отбыть", "departure", "leave",
   "check out", "check-out"]

/-- Process one date match as the source loop body does: parse the day,
month (digits or name lookup with default January) and year (two-digit
pivot 30, else defaulted from the clock), build the datetime (`none`
models the `ValueError` swallowed by `continue`), and tag it as arrival
or departure from the ±20 character context window, falling back to
first-unclaimed-is-arrival. -/
def processDateMatch (nowYear nowMonth : Nat) (text : List Char)
    (start : Nat) (m : DateMatch)
    (acc : List (String × TDVal)) : List (String × TDVal) :=
  let day := digitsToNat m.day
  let month :=
    match m.month with
    | Sum.inl ds => digitsToNat ds
    | Sum.inr name => (dictGet month_names (pyLower name)).getD 1
  let year :=
    match m.year with
    | some ds =>
        let y := digitsToNat ds
        if y < 100 then (if y < 30 then y + 2000 else y + 1900) else y
    | none => if month < nowMonth then nowYear + 1 else nowYear
  match mkDate year month day with
  | none => acc
  | some date_obj =>
      let s0 := start - 20
      let e0 := min text.length (start + m.len + 20)
      let window := (text.drop s0).take (e0 - s0)
      if arrival_keywords.any fun k => containsLit k.data window then
        dictSet acc "arrival" (.date date_obj)
      else if departure_keywords.any fun k => containsLit k.data window then
        dictSet acc "departure" (.date date_obj)
      else if (dictGet acc "arrival").isNone then
        dictSet acc "arrival" (.date date_obj)
      else if (dictGet acc "departure").isNone then
        dictSet acc "departure" (.date date_obj)
      else acc

/-- `re.finditer` loop for one date pattern: non-overlapping matches,
scanned left to right, each processed against the accumulated dict. -/
def scanDates (nowYear nowMonth : Nat) (text : List Char) (pat : Nat) :
    Nat → Nat → List (String × TDVal) → List (String × TDVal)
  | 0, _, acc => acc
  | fuel + 1, i, acc =>
      if i < text.length then
        match datePatternAt pat (text.drop i) with
        | some m =>
            scanDates nowYear nowMonth text pat fuel (i + m.len)
              (processDateMatch nowYear nowMonth text i m acc)
        | none => scanDates nowYear nowMonth text pat fuel (i + 1) acc
      else acc

/-- Finalization step of `_extract_travel_dates` (lines 859-866): when
both arrival and departure are present, compute the day difference and
store it under `"trip_duration"` only when strictly positive; the
subtraction sits in `try/except: pass`, so a non-date operand is
silently skipped. -/
def finalizeTravelDates (td : List (String × TDVal)) :
    List (String × TDVal) :=
  match dictGet td "arrival", dictGet td "departure" with
  | some (.date arr), some (.date dep) =>
      let duration : Int := (dep : Int) - (arr : Int)
      if duration > 0 then dictSet td "trip_duration" (.dur duration) else td
  | _, _ => td

/-- `_extract_travel_dates` on lower-cased text: run the four patterns in
order over the text, then the duration finalization. -/
def extract_travel_dates (nowYear nowMonth : Nat) (t : List Char) :
    List (String × TDVal) :=
  let afterScan :=
    [0, 1, 2, 3].foldl
      (fun acc pat => scanDates nowYear nowMonth t pat (t.length + 1) 0 acc)
      []
  finalizeTravelDates afterScan

/-! ## Tour selection and intents -/

/-- Tour patterns of `_check_tour_selection`, in dict declaration order
(character classes expanded). -/
def tour_patterns : List (String × List String) :=
  [("desert_safari", ["сафари", "пустын", "desert safari", "safari"]),
   ("dubai_city_tour", ["обзор", "дубай", "город", "city tour",
                        "dubai tour", "тур по дубаю"]),
   ("night_cruise", ["круиз", "марин", "ночн", "cruise", "marina", "ужин",
                     "dinner"]),
   ("abu_dhabi_tour", ["абу даби", "абу-даби", "зайд", "мечеть",
                       "abu dhabi", "sheikh zayed"]),
   ("ferrari_world", ["феррари", "ferrari"])]

/-- Booking-phrase openers of `_check_tour_selection`. -/
def booking_prefixes : List String :=
  ["хочу", "интересует", "бронь", "заказ", "выбираю", "хотим", "want",
   "book", "choose", "interested"]

/-- `re.search(rf"{opener}.*{pat}", t)`: the opener occurs and the
pattern occurs at or after the end of its first occurrence. -/
def openerThen (opener pat : String) (t : List Char) : Bool :=
  match findLit opener.data t with
  | none => false
  | some i => containsLit pat.data (t.drop (i + opener.length))

/-- Delimiter class `[,.!? ]` of the isolated-mention pattern. -/
def isDelim (c : Char) : Bool :=
  c = ',' ∨ c = '.' ∨ c = '!' ∨ c = '?' ∨ c = ' '

/-- `re.search(rf"(^|[,.!? ]){pat}($|[,.!? ])", t)`: the pattern occurs
delimited on both sides (start/end of text also delimit). -/
def isolatedMention (pat : String) (t : List Char) : Bool :=
  let rec go (prev : Option Char) (s : List Char) : Bool :=
    let okBefore := match prev with
      | none => true
      | some c => isDelim c
    (okBefore && litAt pat.data s &&
      (match s.drop pat.length with
       | [] => true
       | c :: _ => isDelim c)) ||
    (match s with
     | [] => false
     | c :: rest => go (some c) rest)
  go none t

/-- `_check_tour_selection` on lower-cased text: for each tour in order,
an opener phrase followed by a pattern wins; otherwise all patterns
present, or any single pattern in isolated position, also selects it. -/
def check_tour_selection (t : List Char) : Option String :=
  (tour_patterns.find? fun kv =>
      (booking_prefixes.any fun pre =>
        kv.2.any fun pat => openerThen pre pat t) ||
      kv.2.all (fun pat => containsLit pat.data t) ||
      kv.2.any (fun pat => isolatedMention pat t)).map Prod.fst

/-- Word characters for Python `\b` over the alphabets in use: ASCII
alphanumerics, underscore, and the Cyrillic block. -/
def isWordChar (c : Char) : Bool :=
  c.isAlphanum || c = '_' || (0x400 ≤ c.toNat && c.toNat ≤ 0x4FF)

/-- `re.search(r"\b(alts)\b", t)`: some alternative occurs with non-word
characters (or the text boundary) on both sides. -/
def hasBoundedWord (alts : List String) (t : List Char) : Bool :=
  let rec go (prev : Option Char) (s : List Char) : Bool :=
    let okBefore := match prev with
      | none => true
      | some c => !isWordChar c
    (okBefore && alts.any fun a =>
      litAt a.data s &&
        (match s.drop a.length with
         | [] => true
         | c :: _ => !isWordChar c)) ||
    (match s with
     | [] => false
     | c :: rest => go (some c) rest)
  go none t

/-- The boolean intent flags of `_determine_intent` (the `\s?` in the
price-objection alternative expanded to its two space variants). -/
structure Intents where
  booking : Bool
  objection : Bool
  pricing_inquiry : Bool
  greeting : Bool
  gratitude : Bool
  tour_inquiry : Bool
  confirmation : Bool
  rejection : Bool
deriving DecidableEq, Repr

/-- `_determine_intent` on the lower-cased message. -/
def determine_intent (t : List Char) : Intents :=
  { booking := hasBoundedWord
      ["бронировать", "забронировать", "book", "reserve", "reservation"] t
    objection := hasBoundedWord
      ["дорого", "ценавысок", "цена высок", "слишком", "expensive", "cost",
       "дешевле", "cheaper"] t
    pricing_inquiry := hasBoundedWord
      ["стоимость", "цена", "price", "cost", "сколько стоит"] t
    greeting := hasBoundedWord
      ["привет", "здравствуй", "добрый", "hello", "hi", "good"] t
    gratitude := hasBoundedWord ["спасибо", "благодар", "thank", "thanks"] t
    tour_inquiry := hasBoundedWord
      ["тур", "экскурси", "посмотреть", "посетить", "tour", "excursion",
       "visit"] t
    confirmation := hasBoundedWord
      ["да", "конечно", "верно", "согласен", "yes", "sure", "correct",
       "agree"] t
    rejection := hasBoundedWord ["нет", "не", "never", "no"] t }

/-! ## Combined extraction and the state machine -/

/-- Union step of `_extract_information` for interests: Python builds a
set from the existing list, adds the new tags and stores `list(set)`.
CPython leaves the resulting order unspecified; the model keeps existing
tags in place and appends the genuinely new ones, which has the same
membership (the engine only ever tests membership and emptiness of this
list). -/
def unionInterests (existing newTags : List String) : List String :=
  existing ++ (newTags.filter fun tag => tag ∉ existing).eraseDups

/-- Emirate block of `_extract_information`: each block writes its slot
when its extractor matched and leaves the profile untouched otherwise. -/
def ei_emirate_step (p : CustomerProfile) (t : List Char) : CustomerProfile :=
  match extract_emirate t with
  | some e => { p with emirate := some e }
  | none => p

/-- Group-size and children-count block of `_extract_information`. -/
def ei_group_step (p : CustomerProfile) (t : List Char) : CustomerProfile :=
  let gs := extract_group_size t
  let p := match gs.1 with
    | some n => { p with group_size := some n }
    | none => p
  match gs.2 with
  | some n => { p with children_count := n }
  | none => p

/-- Children-ages block of `_extract_information`. -/
def ei_ages_step (p : CustomerProfile) (t : List Char) : CustomerProfile :=
  let ages := extract_children_ages t
  if ages.isEmpty then p else { p with children_ages := ages }

/-- Interests block of `_extract_information` (union with the existing
interests). -/
def ei_interests_step (p : CustomerProfile) (t : List Char) :
    CustomerProfile :=
  let ints := extract_interests t
  if ints.isEmpty then p
  else { p with interests := unionInterests p.interests ints }

/-- Travel-dates block of `_extract_information`: each extracted entry
is written into the (possibly fresh) `travel_dates` dict. -/
def ei_dates_step (p : CustomerProfile) (nowYear nowMonth : Nat)
    (t : List Char) : CustomerProfile :=
  let td := extract_travel_dates nowYear nowMonth t
  let merged := td.foldl (fun d kv => dictSet d kv.1 kv.2)
    (p.travel_dates.getD [])
  if td.isEmpty then p else { p with travel_dates := some merged }

/-- Tour-selection block of `_extract_information`. -/
def ei_tour_step (p : CustomerProfile) (t : List Char) : CustomerProfile :=
  match check_tour_selection t with
  | some tour => { p with selected_tour := some tour }
  | none => p

/-- Budget block of `_extract_information`. -/
def ei_budget_step (p : CustomerProfile) (t : List Char) : CustomerProfile :=
  match extract_budget_preference t with
  | some b => { p with budget_preference := some b }
  | none => p

/-- `_extract_information`: the seven extraction blocks of the source,
run in source order on the lower-cased message. -/
def extract_information (p : CustomerProfile) (user_message : String)
    (nowYear nowMonth : Nat) : CustomerProfile :=
  let t := (pyLower user_message).data
  ei_budget_step
    (ei_tour_step
      (ei_dates_step
        (ei_interests_step (ei_ages_step (ei_group_step (ei_emirate_step p t) t) t) t)
        nowYear nowMonth t)
      t)
    t

/-- `_determine_missing_info`: the still-missing slots, accumulated in
the fixed priority order of the source.  Note the children question is
only raised once a positive group size is known, and the trip-duration
check reads the `trip_duration` field of the profile. -/
def determine_missing_info (customer : CustomerProfile) : List String :=
  (if !truthyStr customer.emirate then ["emirate"] else []) ++
  (if customer.travel_dates.isNone ∨
      (dictGet (customer.travel_dates.getD []) "arrival").isNone ∨
      (customer.travel_dates.getD []).isEmpty then ["travel_dates"] else []) ++
  (if !truthyInt customer.group_size then ["group_size"] else []) ++
  (if truthyInt customer.group_size ∧ customer.group_size.getD 0 > 0 ∧
      customer.children_count = 0 ∧ customer.children_ages.isEmpty then
    ["children"] else []) ++
  (if !truthyInt customer.trip_duration then ["trip_duration"] else []) ++
  (if customer.interests.isEmpty then ["interests"] else [])

/-- The reply `_handle_gathering_info` produces, abstracted to which
template it selects.  Modelled from the spec: `_load_templates` is elided
in the source (`# ...existing code...`), so a reply is represented by the
template key it asks with; `recommendations` stands for the delegation to
`_handle_recommending` when nothing is missing. -/
inductive GatherReply where
  | ask (slot : String)
  | recommendations
deriving DecidableEq, Repr

/-- The template-selection chain of `_handle_gathering_info`: ask for
the first slot of the fixed priority order that is still missing (with
the source's final fallback of asking about interests). -/
def gather_ask (missing : List String) : GatherReply :=
  if "emirate" ∈ missing then .ask "emirate"
  else if "travel_dates" ∈ missing then .ask "travel_dates"
  else if "group_size" ∈ missing then .ask "group_size"
  else if "children" ∈ missing then .ask "children"
  else if "trip_duration" ∈ missing then .ask "trip_duration"
  else if "interests" ∈ missing then .ask "interests"
  else .ask "interests"

/-- `_handle_gathering_info`: extract from the message, then either move
to RECOMMENDING (nothing missing) or ask for the highest-priority missing
slot via the template chain of the source. -/
def handle_gathering_info (c : ConversationContext) (user_message : String)
    (nowYear nowMonth : Nat) : ConversationContext × GatherReply :=
  let customer := extract_information c.customer user_message nowYear nowMonth
  let c := { c with customer := customer }
  let missing := determine_missing_info customer
  if missing.isEmpty then
    ({ c with state := .recommending }, .recommendations)
  else (c, gather_ask missing)

/-- `_extract_emirate_context`. -/
def extract_emirate_context (c : ConversationContext) (t : List Char) :
    ConversationContext :=
  match extract_emirate t with
  | some e => { c with customer := { c.customer with emirate := some e } }
  | none => c

/-- `_extract_group_size_context` (also extracts children ages). -/
def extract_group_size_context (c : ConversationContext) (t : List Char) :
    ConversationContext :=
  let gs := extract_group_size t
  let c := match gs.1 with
    | some n => { c with customer := { c.customer with group_size := some n } }
    | none => c
  let c := match gs.2 with
    | some n =>
        { c with customer := { c.customer with children_count := n } }
    | none => c
  let ages := extract_children_ages t
  if ages.isEmpty then c
  else { c with customer := { c.customer with children_ages := ages } }

/-- `_extract_interests_context`. -/
def extract_interests_context (c : ConversationContext) (t : List Char) :
    ConversationContext :=
  let ints := extract_interests t
  if ints.isEmpty then c
  else { c with customer :=
    { c.customer with interests := unionInterests c.customer.interests ints } }

/-- Variant patterns of `_check_tour_selection_context`, in declaration
order. -/
def variant_patterns : List (String × List String) :=
  [("standard", ["стандарт", "basic"]),
   ("premium", ["премиум", "premium", "улучшенн"]),
   ("vip", ["вип", "vip", "люкс", "luxury"])]

/-- `_check_tour_selection_context`: a selected tour is written to the
profile and — crucially — the conversation state is set to
PRESENTING_DETAILS right here, before the transition table runs; then a
variant keyword is looked for whenever a tour is selected. -/
def check_tour_selection_context (c : ConversationContext) (t : List Char) :
    ConversationContext :=
  let c := match check_tour_selection t with
    | some tour =>
        { c with customer := { c.customer with selected_tour := some tour },
                 state := .presenting_details }
    | none => c
  if c.customer.selected_tour.isSome then
    match variant_patterns.find? fun kv => hasBoundedWord kv.2 t with
    | some kv =>
        { c with customer := { c.customer with selected_variant := some kv.1 } }
    | none => c
  else c

/-- The extraction block of `_update_conversation_state`: the four
context extractors run in source order (tour selection may already move
the state to PRESENTING_DETAILS). -/
def apply_context_extractors (c : ConversationContext) (t : List Char) :
    ConversationContext :=
  let c := extract_emirate_context c t
  let c := extract_group_size_context c t
  let c := extract_interests_context c t
  check_tour_selection_context c t

/-- The transition table of `_update_conversation_state`, keyed on the
(possibly already updated) state. -/
def state_transition (c : ConversationContext) (intents : Intents)
    (t : List Char) : ConversationContext :=
  if c.state = .greeting then
    { c with state := .gathering_info }
  else if c.state = .gathering_info then
    if truthyStr c.customer.emirate ∧ truthyInt c.customer.group_size ∧
        (¬ c.customer.interests.isEmpty ∨ truthyStr c.customer.selected_tour)
    then { c with state := .recommending }
    else c
  else if c.state = .recommending then
    if truthyStr c.customer.selected_tour then
      { c with state := .presenting_details }
    else if intents.objection then { c with state := .handling_objection }
    else c
  else if c.state = .presenting_details then
    if intents.booking ∨ intents.confirmation then { c with state := .booking }
    else if intents.objection then { c with state := .handling_objection }
    else c
  else if c.state = .handling_objection then
    if intents.confirmation ∨ intents.booking then
      if truthyStr c.customer.selected_tour then { c with state := .booking }
      else { c with state := .recommending }
    else c
  else if c.state = .booking then
    if intents.confirmation ∨
        hasBoundedWord ["дата", "date", "когда", "when"] t then
      { c with state := .upselling }
    else c
  else if c.state = .upselling then
    if intents.confirmation ∨ intents.rejection then
      { c with state := .closing }
    else c
  else c

/-- `_update_conversation_state`: intent detection, the extraction
block, then the transition table. -/
def update_conversation_state (c : ConversationContext) (message : String) :
    ConversationContext :=
  let t := (pyLower message).data
  state_transition (apply_context_extractors c t) (determine_intent t) t

/-! ## Recommendation scorer -/

/-- Static tour details of the `tours` table inside
`_get_recommendations`. -/
structure TourInfo where
  tname : String
  description : String
  starting_price : Nat
  includes_transfer : Bool
  includes_meals : Bool
  duration : String
  tags : List String
deriving DecidableEq, Repr

/-- The three hardcoded tours of `_get_recommendations`, in dict
declaration order.  `night_cruise` has no `tags` key, so
`tour_info.get("tags", [])` yields the empty list for it. -/
def recommendationTours : List (String × TourInfo) :=
  [("desert_safari",
    { tname := "Сафари по пустыне с ужином и шоу"
      description := "Захватывающее приключение в золотых песках пустыни"
      starting_price := 550
      includes_transfer := true
      includes_meals := true
      duration := "5.5 часов (15:30-21:00)"
      tags := ["adventure", "desert", "family", "photo", "dinner"] }),
   ("dubai_city_tour",
    { tname := "VIP-экскурсия по Дубаю с Бурдж Халифа"
      description :=
        "Увлекательное путешествие по всем знаковым достопримечательностям города"
      starting_price := 680
      includes_transfer := true
      includes_meals := true
      duration := "8 часов (9:00-17:00)"
      tags := ["city", "culture", "family", "photo", "burj_khalifa"] }),
   ("night_cruise",
    { tname := "Ночной круиз по Дубай Марине с ужином"
      description :=
        "Романтический вечер на роскошной яхте с панорамными видами на ночной Дубай"
      starting_price := 495
      includes_transfer := true
      includes_meals := true
      duration := "2.5 часа (19:30-22:00)"
      tags := [] })]

/-- The score accumulation of `_get_recommendations` for one tour: +1
per tag present in the profile interests, +1 on a budget-band match over
the hardcoded 500/1000 thresholds, +1 for groups above 2 on
family-tagged tours, and +1 for adventure-tagged tours when the
difference of the profile travel dates is at least 3 days.  The score is
an integer-valued float in the source, modelled as `Nat`.  The date
branch can only see datetimes under the arrival and departure keys, so
the heterogeneous `dur` case is unreachable there. -/
def scoreTour (customer : CustomerProfile) (info : TourInfo) : Nat :=
  let interestPts := (info.tags.filter fun tag => tag ∈ customer.interests).length
  let budgetPts :=
    if customer.budget_preference = some "low" ∧ info.starting_price ≤ 500 then 1
    else if customer.budget_preference = some "medium" ∧
        500 < info.starting_price ∧ info.starting_price ≤ 1000 then 1
    else if customer.budget_preference = some "high" ∧
        1000 < info.starting_price then 1
    else 0
  let groupPts :=
    if truthyInt customer.group_size ∧ customer.group_size.getD 0 > 2 ∧
        "family" ∈ info.tags then 1
    else 0
  let datePts :=
    match customer.travel_dates with
    | some td =>
        if !td.isEmpty then
          match dictGet td "arrival", dictGet td "departure" with
          | some (.date arr), some (.date dep) =>
              if (dep : Int) - (arr : Int) ≥ 3 ∧ "adventure" ∈ info.tags
              then 1 else 0
          | _, _ => 0
        else 0
    | none => 0
  interestPts + budgetPts + groupPts + datePts

/-- One entry of the recommendation list: `(tour_id, score, tour_info)`. -/
structure RecEntry where
  id : String
  score : Nat
  info : TourInfo
deriving DecidableEq, Repr

/-- `recommendations.sort(key=lambda x: x[1], reverse=True)`: Python
list.sort is stable and `reverse=True` keeps equal keys in their
original order.  Any stable descending sort computes the same list;
insertion sort with the non-strict descending relation is stable, so it
is an exact model. -/
def pySortDesc (l : List RecEntry) : List RecEntry :=
  List.insertionSort (fun a b => b.score ≤ a.score) l

/-- `_get_recommendations`: score the three hardcoded tours in
declaration order and stably sort them by descending score. -/
def get_recommendations (customer : CustomerProfile) : List RecEntry :=
  pySortDesc (recommendationTours.map fun kv =>
    { id := kv.1, score := scoreTour customer kv.2, info := kv.2 })

/-- The score the returned list assigns to a given tour id. -/
def scoreFor (customer : CustomerProfile) (tourId : String) : Option Nat :=
  ((get_recommendations customer).find? fun r => r.id = tourId).map RecEntry.score

/-- Declaration index of each tour in the hardcoded table (for stating
the declaration-order tie-break). -/
def declIdx (tourId : String) : Nat :=
  if tourId = "desert_safari" then 0
  else if tourId = "dubai_city_tour" then 1
  else if tourId = "night_cruise" then 2
  else 3

/-- The scoring rule asserted by the specification, stated in its own
words for comparison with the implementation: it reads the profile field
`trip_duration` for the trip-length bonus (the implementation instead
recomputes the difference of the raw travel dates). -/
def specClaimScore (customer : CustomerProfile) (info : TourInfo) : Nat :=
  let interestPts := (info.tags.filter fun tag => tag ∈ customer.interests).length
  let budgetPts :=
    if customer.budget_preference = some "low" ∧ info.starting_price ≤ 500 then 1
    else if customer.budget_preference = some "medium" ∧
        500 < info.starting_price ∧ info.starting_price ≤ 1000 then 1
    else if customer.budget_preference = some "high" ∧
        1000 < info.starting_price then 1
    else 0
  let groupPts :=
    if truthyInt customer.group_size ∧ customer.group_size.getD 0 > 2 ∧
        "family" ∈ info.tags then 1
    else 0
  let datePts :=
    if customer.trip_duration.getD 0 ≥ 3 ∧ "adventure" ∈ info.tags then 1
    else 0
  interestPts + budgetPts + groupPts + datePts

/-! ## Response generator retry and fallback -/

/-- The failure modes of the text-generation collaborator.  In the
vendor SDK the timeout error is a subclass of the connection error, and
the rate-limit error a subclass of the generic API error; the
`except` dispatch below reflects those subclass relations. -/
inductive LLMErr where
  | rateLimit
  | apiTimeout
  | apiConnection
  | apiError
  | requestException
deriving DecidableEq, Repr

/-- The exception types `retry_if_exception_type` lists on the decorator
(requests exceptions, APIError and its subclasses, APIConnectionError,
APITimeoutError) — every constructor qualifies. -/
def retryableErr : LLMErr → Bool
  | _ => true

/-- Mutable generator configuration relevant to the retry logic. -/
structure GenState where
  use_chatgpt : Bool
  llm_initialized : Bool
  working_model : Option String
  failed_models : List String
deriving DecidableEq, Repr

/-- `OPENAI_MODELS`. -/
def OPENAI_MODELS : List String :=
  ["gpt-4.5", "gpt-4o", "gpt-4-turbo", "gpt-4", "gpt-3.5-turbo"]

/-- Canned fallback replies of `_generate_chatgpt_response` (shortened
to their openings; they are non-empty fixed strings in the source). -/
def msgUnavailable : String :=
  "Извините, в данный момент я не могу использовать ИИ для ответа."

/-- Rate-limit fallback reply. -/
def msgRateLimit : String :=
  "Извините, сейчас я немного перегружена запросами."

/-- Connection-problem fallback reply. -/
def msgConnection : String :=
  "Извините, у меня временные проблемы с подключением."

/-- Generic error fallback reply. -/
def msgGenericError : String :=
  "Извините, произошла ошибка при обработке вашего запроса."

/-- The fallback loop of `_initialize_llm` over the remaining models:
probe each model not yet marked failed; the first successful probe
becomes the working model, and if every model fails the generator
disables ChatGPT and reports failure. -/
def initLLMLoop (probe : String → Except LLMErr String) :
    List String → GenState → GenState × Bool
  | [], st => ({ st with use_chatgpt := false }, false)
  | m :: rest, st =>
      if m ∈ st.failed_models then initLLMLoop probe rest st
      else
        match probe m with
        | .ok _ => ({ st with llm_initialized := true,
                              working_model := some m }, true)
        | .error _ =>
            initLLMLoop probe rest { st with failed_models := st.failed_models ++ [m] }

/-- `_initialize_llm`: try the preferred model gpt-4o first, then the
remaining models in preference order. -/
def initialize_llm (probe : String → Except LLMErr String) (st : GenState) :
    GenState × Bool :=
  match probe "gpt-4o" with
  | .ok _ => ({ st with llm_initialized := true,
                        working_model := some "gpt-4o" }, true)
  | .error _ => initLLMLoop probe (OPENAI_MODELS.drop 1) st

/-- One attempt of `_generate_chatgpt_response` as the decorated callable
the retry wrapper sees.  The body wraps the completion call in nested
`try/except` handlers that catch the rate-limit, connection and generic
exception cases and turn each into a fixed fallback string, so no path
re-raises: every branch of the translation ends in `pure`.  The
connection handler marks the working model failed, re-initializes and,
if that succeeds, re-enters the body (`fuel` bounds that recursion; in
Python it terminates because each round marks one more model failed). -/
def chatgptAttempt (probe : String → Except LLMErr String)
    (invoke : Except LLMErr String) :
    Nat → GenState → Except LLMErr (GenState × String)
  | fuel, st =>
      if ¬ (st.use_chatgpt ∧ st.llm_initialized) then
        Except.ok (st, msgUnavailable)
      else
        match invoke with
        | .ok s => Except.ok (st, s)
        | .error e =>
            match e with
            | .rateLimit => Except.ok (st, msgRateLimit)
            | .apiTimeout | .apiConnection =>
                match st.working_model with
                | some wm =>
                    let st1 :=
                      { st with failed_models := st.failed_models ++ [wm] }
                    let (st2, ok) := initialize_llm probe st1
                    if ok then
                      match fuel with
                      | fuel' + 1 => chatgptAttempt probe invoke fuel' st2
                      | 0 => Except.ok (st2, msgConnection)
                    else Except.ok (st2, msgConnection)
                | none => Except.ok (st, msgConnection)
            | _ => Except.ok (st, msgGenericError)

/-- The `stop_after_attempt(3)` / `reraise=True` retry loop of the
`tenacity` decorator: call the wrapped function up to `remaining` times,
retrying only when it raises a retryable exception, and re-raise the
last exception once attempts are exhausted.  Returns the outcome and the
number of attempts made. -/
def tenacityLoop {α : Type} (run : Nat → Except LLMErr α) :
    Nat → Nat → Except LLMErr α × Nat
  | 0, attempt => (run attempt, attempt)
  | remaining + 1, attempt =>
      match run attempt with
      | .ok a => (.ok a, attempt)
      | .error e =>
          if retryableErr e ∧ remaining > 0 then
            tenacityLoop run remaining (attempt + 1)
          else (.error e, attempt)

/-- `_generate_chatgpt_response` with its decorator: at most 3 attempts. -/
def generate_chatgpt_response (probe : String → Except LLMErr String)
    (invoke : Except LLMErr String) (st : GenState) :
    Except LLMErr (GenState × String) × Nat :=
  tenacityLoop (fun _ => chatgptAttempt probe invoke 6 st) 3 1

/-- Modelled from the spec: the template-based response path of
`generate_response` is elided in the source (`# ...existing code...`);
per the specification it selects a canned, non-empty, state-appropriate
reply, which the model represents by one fixed non-empty string. -/
def template_fallback (_c : ConversationContext) : String :=
  "Пожалуйста, уточните, какая экскурсия вас интересует."

/-- `generate_response`: when ChatGPT is configured with a working model
and the message is non-empty, call the retried completion and fall back
to the template path if the retried call still raises; otherwise answer
from templates directly.  Returns the reply and the number of completion
attempts made. -/
def generate_response (probe : String → Except LLMErr String)
    (invoke : Except LLMErr String) (st : GenState)
    (c : ConversationContext) (user_message : String) : String × Nat :=
  if st.use_chatgpt ∧ st.working_model.isSome ∧ ¬ user_message.isEmpty then
    match generate_chatgpt_response probe invoke st with
    | (.ok (_, reply), attempts) => (reply, attempts)
    | (.error _, attempts) => (template_fallback c, attempts)
  else (template_fallback c, 0)

/-! ## Derived pipeline operations used by the claims -/

/-- A sequence of user turns processed by the state-update step. -/
def run_turns (c : ConversationContext) (msgs : List String) :
    ConversationContext :=
  msgs.foldl update_conversation_state c

/-- Serialize then deserialize a conversation record
(`ConversationContext.from_dict(record.to_dict())`). -/
def context_roundtrip (c : ConversationContext) (now : PyDateTime) :
    Except String ConversationContext :=
  c.to_dict.bind fun d => ConversationContext.from_dict d now

/-- The `travel_dates` dict of a profile holds only datetime values (the
declared type of the field; the serializer raises on anything else). -/
def travelDatesWellFormed (p : CustomerProfile) : Bool :=
  (p.travel_dates.getD []).all fun kv =>
    match kv.2 with
    | .date _ => true
    | .dur _ => false

/-! ## Helper lemmas -/

theorem dictGet_dictSet_self {α : Type} (d : List (String × α)) (k : String)
    (v : α) : dictGet (dictSet d k v) k = some v := by
  induction d with
  | nil => simp [dictSet, dictGet]
  | cons kv rest ih =>
      by_cases h : kv.1 = k
      · simp [dictSet, dictGet, h]
      · simp [dictSet, dictGet, h, ih]

theorem eec_state (c : ConversationContext) (t : List Char) :
    (extract_emirate_context c t).state = c.state := by
  unfold extract_emirate_context
  cases extract_emirate t <;> rfl

theorem egsc_state (c : ConversationContext) (t : List Char) :
    (extract_group_size_context c t).state = c.state := by
  unfold extract_group_size_context
  rcases hgs : extract_group_size t with ⟨g, ch⟩
  cases g <;> cases ch <;> by_cases h : (extract_children_ages t).isEmpty <;>
    simp [hgs, h]

theorem eic_state (c : ConversationContext) (t : List Char) :
    (extract_interests_context c t).state = c.state := by
  unfold extract_interests_context
  by_cases h : (extract_interests t).isEmpty <;> simp [h]

theorem ctsc_state_of_none (c : ConversationContext) (t : List Char)
    (h : check_tour_selection t = none) :
    (check_tour_selection_context c t).state = c.state := by
  unfold check_tour_selection_context
  rw [h]
  by_cases h2 : c.customer.selected_tour.isSome <;> simp [h2]
  cases variant_patterns.find? fun kv => hasBoundedWord kv.2 t <;> simp

theorem ace_state_of_none (c : ConversationContext) (t : List Char)
    (h : check_tour_selection t = none) :
    (apply_context_extractors c t).state = c.state := by
  unfold apply_context_extractors
  rw [ctsc_state_of_none _ _ h, eic_state, egsc_state, eec_state]

theorem state_transition_ne_greeting (c : ConversationContext)
    (intents : Intents) (t : List Char) :
    (state_transition c intents t).state ≠ .greeting := by
  unfold state_transition
  split_ifs <;> simp_all

theorem update_state_ne_greeting (c : ConversationContext) (msg : String) :
    (update_conversation_state c msg).state ≠ .greeting := by
  unfold update_conversation_state
  exact state_transition_ne_greeting _ _ _

theorem run_turns_ne_greeting (msgs : List String) (c : ConversationContext)
    (h : c.state ≠ .greeting) : (run_turns c msgs).state ≠ .greeting := by
  induction msgs generalizing c with
  | nil => exact h
  | cons m ms ih =>
      exact ih (update_conversation_state c m) (update_state_ne_greeting c m)

theorem ei_emirate_other (p : CustomerProfile) (t : List Char) :
    (ei_emirate_step p t).group_size = p.group_size ∧
    (ei_emirate_step p t).children_count = p.children_count ∧
    (ei_emirate_step p t).children_ages = p.children_ages ∧
    (ei_emirate_step p t).interests = p.interests ∧
    (ei_emirate_step p t).travel_dates = p.travel_dates ∧
    (ei_emirate_step p t).selected_tour = p.selected_tour ∧
    (ei_emirate_step p t).budget_preference = p.budget_preference := by
  unfold ei_emirate_step
  cases extract_emirate t <;> simp

theorem ei_group_other (p : CustomerProfile) (t : List Char) :
    (ei_group_step p t).emirate = p.emirate ∧
    (ei_group_step p t).children_ages = p.children_ages ∧
    (ei_group_step p t).interests = p.interests ∧
    (ei_group_step p t).travel_dates = p.travel_dates ∧
    (ei_group_step p t).selected_tour = p.selected_tour ∧
    (ei_group_step p t).budget_preference = p.budget_preference := by
  unfold ei_group_step
  rcases extract_group_size t with ⟨g, ch⟩
  cases g <;> cases ch <;> simp

theorem ei_ages_other (p : CustomerProfile) (t : List Char) :
    (ei_ages_step p t).emirate = p.emirate ∧
    (ei_ages_step p t).group_size = p.group_size ∧
    (ei_ages_step p t).children_count = p.children_count ∧
    (ei_ages_step p t).interests = p.interests ∧
    (ei_ages_step p t).travel_dates = p.travel_dates ∧
    (ei_ages_step p t).selected_tour = p.selected_tour ∧
    (ei_ages_step p t).budget_preference = p.budget_preference := by
  unfold ei_ages_step
  by_cases h : (extract_children_ages t).isEmpty <;> simp [h]

theorem ei_interests_other (p : CustomerProfile) (t : List Char) :
    (ei_interests_step p t).emirate = p.emirate ∧
    (ei_interests_step p t).group_size = p.group_size ∧
    (ei_interests_step p t).children_count = p.children_count ∧
    (ei_interests_step p t).children_ages = p.children_ages ∧
    (ei_interests_step p t).travel_dates = p.travel_dates ∧
    (ei_interests_step p t).selected_tour = p.selected_tour ∧
    (ei_interests_step p t).budget_preference = p.budget_preference := by
  unfold ei_interests_step
  by_cases h : (extract_interests t).isEmpty <;> simp [h]

theorem ei_dates_other (p : CustomerProfile) (nowY nowM : Nat)
    (t : List Char) :
    (ei_dates_step p nowY nowM t).emirate = p.emirate ∧
    (ei_dates_step p nowY nowM t).group_size = p.group_size ∧
    (ei_dates_step p nowY nowM t).children_count = p.children_count ∧
    (ei_dates_step p nowY nowM t).children_ages = p.children_ages ∧
    (ei_dates_step p nowY nowM t).interests = p.interests ∧
    (ei_dates_step p nowY nowM t).selected_tour = p.selected_tour ∧
    (ei_dates_step p nowY nowM t).budget_preference = p.budget_preference := by
  unfold ei_dates_step
  by_cases h : (extract_travel_dates nowY nowM t).isEmpty <;> simp [h]

theorem ei_tour_other (p : CustomerProfile) (t : List Char) :
    (ei_tour_step p t).emirate = p.emirate ∧
    (ei_tour_step p t).group_size = p.group_size ∧
    (ei_tour_step p t).children_count = p.children_count ∧
    (ei_tour_step p t).children_ages = p.children_ages ∧
    (ei_tour_step p t).interests = p.interests ∧
    (ei_tour_step p t).travel_dates = p.travel_dates ∧
    (ei_tour_step p t).budget_preference = p.budget_preference := by
  unfold ei_tour_step
  cases check_tour_selection t <;> simp

theorem ei_budget_other (p : CustomerProfile) (t : List Char) :
    (ei_budget_step p t).emirate = p.emirate ∧
    (ei_budget_step p t).group_size = p.group_size ∧
    (ei_budget_step p t).children_count = p.children_count ∧
    (ei_budget_step p t).children_ages = p.children_ages ∧
    (ei_budget_step p t).interests = p.interests ∧
    (ei_budget_step p t).travel_dates = p.travel_dates ∧
    (ei_budget_step p t).selected_tour = p.selected_tour := by
  unfold ei_budget_step
  cases extract_budget_preference t <;> simp

theorem extract_group_size_fst_pattern2 (t : List Char) (kw : String)
    (h1 : findKwNum groupKw1 t = none)
    (h2 : findNumKw groupKw2 t = some kw) :
    (extract_group_size t).1 = some (convert_word_to_number kw) := by
  unfold extract_group_size
  rw [h1, h2]

theorem ei_group_step_group_size (p : CustomerProfile) (t : List Char) :
    (ei_group_step p t).group_size =
      match (extract_group_size t).1 with
      | some n => some n
      | none => p.group_size := by
  unfold ei_group_step
  rcases hg : extract_group_size t with ⟨g, ch⟩
  cases g <;> cases ch <;> simp [hg]

theorem state_transition_customer (c : ConversationContext)
    (intents : Intents) (t : List Char) :
    (state_transition c intents t).customer = c.customer := by
  unfold state_transition
  split_ifs <;> rfl

theorem gather_ask_head (p : CustomerProfile) (slot : String)
    (rest : List String) (h : determine_missing_info p = slot :: rest) :
    gather_ask (slot :: rest) = .ask slot := by
  unfold determine_missing_info at h
  unfold gather_ask
  by_cases h1 : !truthyStr p.emirate <;>
  by_cases h2 : p.travel_dates.isNone ∨
      (dictGet (p.travel_dates.getD []) "arrival").isNone ∨
      (p.travel_dates.getD []).isEmpty <;>
  by_cases h3 : !truthyInt p.group_size <;>
  by_cases h4 : 0 < p.group_size.getD 0 ∧ p.children_count = 0 ∧
      p.children_ages = [] <;>
  by_cases h5 : !truthyInt p.trip_duration <;>
  by_cases h6 : p.interests = [] <;>
  simp_all <;>
  (obtain ⟨rfl, rfl⟩ := h; simp)

/-! ## Claims -/

/-- C9 amended (corrected): for every extracted arrival and departure
pair, the finalization step of `_extract_travel_dates` stores the day
difference under `"trip_duration"` only when it is strictly positive;
zero or negative differences store nothing (and surface no error). -/
theorem c9_trip_duration_strictly_positive
    (td : List (String × TDVal)) (arr dep : PyDateTime)
    (harr : dictGet td "arrival" = some (.date arr))
    (hdep : dictGet td "departure" = some (.date dep)) :
    dictGet (finalizeTravelDates td) "trip_duration" =
      if (dep : Int) - (arr : Int) > 0 then
        some (.dur ((dep : Int) - (arr : Int)))
      else dictGet td "trip_duration" := by
  unfold finalizeTravelDates
  rw [harr, hdep]
  dsimp only
  split_ifs with h
  · exact dictGet_dictSet_self td "trip_duration" _
  · rfl

/-- Witness for C9: an arrival on day 100 and departure on day 103 store
a duration of 3 days. -/
theorem c9_trip_duration_witness :
    dictGet
      (finalizeTravelDates
        [("arrival", .date 100), ("departure", .date 103)])
      "trip_duration" = some (.dur 3) := by
  have h := c9_trip_duration_strictly_positive
    [("arrival", .date 100), ("departure", .date 103)] 100 103
    (by decide) (by decide)
  simpa using h

/-- C9 counterexample: the claim says the stored duration is the
non-negative day difference, with only negative differences discarded;
but for the utterance naming the same arrival and departure date the
difference is 0 — non-negative — and the code stores nothing. -/
theorem c9_zero_difference_not_stored :
    (extract_travel_dates 2026 10
        (pyLower "приезд 05.03.2026, отъезд 05.03.2026").data =
      [("arrival", .date (dateToDays 2026 3 5)),
       ("departure", .date (dateToDays 2026 3 5))]) ∧
    dictGet
      (extract_travel_dates 2026 10
        (pyLower "приезд 05.03.2026, отъезд 05.03.2026").data)
      "trip_duration" = none ∧
    ((dateToDays 2026 3 5 : Int) - (dateToDays 2026 3 5 : Int) ≥ 0) := by
  refine ⟨by decide, by decide, by decide⟩

/-- C10 (confirmed): when only the number-first group-size pattern
matches, the source converts `matches.group(2)` — the captured party
keyword, not the number; `_convert_word_to_number` yields 0 for any word
outside its vocabulary, and `_extract_information` stores that 0 into
`group_size` (documented as a nullable positive int). -/
theorem c10_keyword_capture_stores_zero
    (msg : String) (p : CustomerProfile) (nowY nowM : Nat) (kw : String)
    (h1 : findKwNum groupKw1 (pyLower msg).data = none)
    (h2 : findNumKw groupKw2 (pyLower msg).data = some kw)
    (h3 : ¬ ((pyLower kw).data ≠ [] ∧ (pyLower kw).data.all Char.isDigit))
    (h4 : dictGet word_to_number (pyLower kw) = none) :
    convert_word_to_number kw = 0 ∧
    (extract_group_size (pyLower msg).data).1 = some 0 ∧
    (extract_information p msg nowY nowM).group_size = some 0 := by
  have hconv : convert_word_to_number kw = 0 := by
    unfold convert_word_to_number
    rw [if_neg h3, h4]
    rfl
  have hgs : (extract_group_size (pyLower msg).data).1 = some 0 := by
    rw [extract_group_size_fst_pattern2 _ kw h1 h2, hconv]
  refine ⟨hconv, hgs, ?_⟩
  unfold extract_information
  rw [(ei_budget_other _ _).2.1, (ei_tour_other _ _).2.1,
    (ei_dates_other _ _ _ _).2.1, (ei_interests_other _ _).2.1,
    (ei_ages_other _ _).2.1, ei_group_step_group_size, hgs]

/-- Witness for C10: for the utterance "2 adults" only the number-first
pattern matches, the captured keyword "adults" converts to 0, and the
profile ends with `group_size = some 0`. -/
theorem c10_keyword_capture_witness :
    convert_word_to_number "adults" = 0 ∧
    (extract_group_size (pyLower "2 adults").data).1 = some 0 ∧
    (extract_information {} "2 adults" 2026 10).group_size = some 0 :=
  c10_keyword_capture_stores_zero "2 adults" {} 2026 10 "adults"
    (by decide) (by decide) (by decide) (by decide)

/-- C2 (code bug): on the utterance "Dubai, 2 adults and one child, 8
years" the emirate and the children ages come out as the claim states,
but the greedy `.+` of the keyword-first patterns captures the last
number token "8", so the code stores `group_size = 8` and
`children_count = 8` instead of the claimed 2 and 1. -/
theorem c2_extraction_scenario_actual :
    (extract_information {} "Dubai, 2 adults and one child, 8 years" 2026 10).emirate
      = some "dubai" ∧
    (extract_information {} "Dubai, 2 adults and one child, 8 years" 2026 10).children_ages
      = [8] ∧
    (extract_information {} "Dubai, 2 adults and one child, 8 years" 2026 10).group_size
      = some 8 ∧
    (extract_information {} "Dubai, 2 adults and one child, 8 years" 2026 10).children_count
      = 8 := by
  refine ⟨by decide, by decide, by decide, by decide⟩

/-- C3 counterexample: from GREETING the transition is not
unconditional — the utterance "хочу сафари" selects a tour, and
`_check_tour_selection_context` moves the state to PRESENTING_DETAILS
before the GREETING rule can run, so the turn does not end in
GATHERING_INFO. -/
theorem c3_greeting_counterexample :
    (update_conversation_state {} "хочу сафари").state =
        .presenting_details ∧
    (update_conversation_state {} "хочу сафари").state ≠
        .gathering_info ∧
    ({} : ConversationContext).state = .greeting := by
  refine ⟨by decide, by decide, rfl⟩

/-- C3 amended (corrected): from GREETING, processing a turn moves the
state to GATHERING_INFO for every utterance that does not match a
tour-selection pattern; a tour-selecting utterance instead pre-empts the
state to PRESENTING_DETAILS. -/
theorem c3_greeting_to_gathering
    (c : ConversationContext) (msg : String)
    (hst : c.state = .greeting)
    (htour : check_tour_selection (pyLower msg).data = none) :
    (update_conversation_state c msg).state = .gathering_info := by
  unfold update_conversation_state state_transition
  have hace : (apply_context_extractors c (pyLower msg).data).state = .greeting := by
    rw [ace_state_of_none _ _ htour, hst]
  simp [hace]

/-- Witness for C3: a greeting utterance selects no tour and lands in
GATHERING_INFO. -/
theorem c3_greeting_to_gathering_witness :
    (update_conversation_state {} "привет").state = .gathering_info :=
  c3_greeting_to_gathering {} "привет" rfl (by decide)

/-- C4 (confirmed): from BOOKING, UPSELLING or CLOSING no sequence of
turns processed by `_update_conversation_state` ever reaches GREETING
again (the transition table never assigns GREETING); only a fresh
record — the explicit reset — starts at GREETING. -/
theorem c4_no_regression_to_greeting
    (c : ConversationContext) (msgs : List String)
    (h : c.state = .booking ∨ c.state = .upselling ∨ c.state = .closing) :
    (run_turns c msgs).state ≠ .greeting ∧
    ({} : ConversationContext).state = .greeting := by
  refine ⟨run_turns_ne_greeting msgs c ?_, rfl⟩
  rcases h with h | h | h <;> rw [h] <;> simp

/-- Witness for C4: a BOOKING-state record stays away from GREETING over
a concrete two-turn dialogue. -/
theorem c4_no_regression_witness :
    (run_turns { state := .booking } ["да", "привет"]).state ≠ .greeting ∧
    ({} : ConversationContext).state = .greeting :=
  c4_no_regression_to_greeting { state := .booking } ["да", "привет"]
    (Or.inl rfl)

/-- C1 counterexample: in GATHERING_INFO with region and party size
already known, the tour-selecting utterance "хочу сафари" makes the
claimed condition (emirate AND group size AND (interests OR tour)) true
after extraction, yet the state ends at PRESENTING_DETAILS — neither
RECOMMENDING (as the claim requires) nor GATHERING_INFO. -/
theorem c1_gathering_counterexample :
    (truthyStr (update_conversation_state
        { state := .gathering_info,
          customer := { emirate := some "dubai", group_size := some 2 } }
        "хочу сафари").customer.emirate ∧
     truthyInt (update_conversation_state
        { state := .gathering_info,
          customer := { emirate := some "dubai", group_size := some 2 } }
        "хочу сафари").customer.group_size ∧
     truthyStr (update_conversation_state
        { state := .gathering_info,
          customer := { emirate := some "dubai", group_size := some 2 } }
        "хочу сафари").customer.selected_tour) ∧
    (update_conversation_state
        { state := .gathering_info,
          customer := { emirate := some "dubai", group_size := some 2 } }
        "хочу сафари").state = .presenting_details := by
  refine ⟨⟨by decide, by decide, by decide⟩, by decide⟩

/-- C1 amended (corrected): from GATHERING_INFO, the state-update step
moves to RECOMMENDING exactly when, after extraction, emirate AND group
size AND (interests OR selected tour) are all known AND the utterance
itself selected no tour (a tour-selecting utterance pre-empts the state
to PRESENTING_DETAILS); and when slots are still missing, the
gathering-info response path asks for the highest-priority missing slot
in the fixed order region, travel dates, party size, children info,
trip duration, interests. -/
theorem c1_gathering_transition_and_reply
    (c : ConversationContext) (msg : String) (nowY nowM : Nat)
    (hst : c.state = .gathering_info) :
    (check_tour_selection (pyLower msg).data = none →
      (update_conversation_state c msg).state =
        (if truthyStr (apply_context_extractors c (pyLower msg).data).customer.emirate ∧
            truthyInt (apply_context_extractors c (pyLower msg).data).customer.group_size ∧
            (¬ (apply_context_extractors c (pyLower msg).data).customer.interests.isEmpty ∨
              truthyStr (apply_context_extractors c (pyLower msg).data).customer.selected_tour)
         then .recommending else .gathering_info)) ∧
    (∀ slot rest,
      determine_missing_info (extract_information c.customer msg nowY nowM) =
        slot :: rest →
      (handle_gathering_info c msg nowY nowM).2 = .ask slot) := by
  constructor
  · intro htour
    have hace : (apply_context_extractors c (pyLower msg).data).state =
        .gathering_info := by
      rw [ace_state_of_none _ _ htour, hst]
    have hne : ¬ ((apply_context_extractors c (pyLower msg).data).state =
        .greeting) := by
      rw [hace]
      simp
    unfold update_conversation_state state_transition
    rw [if_neg hne, if_pos hace]
    by_cases hcond :
        truthyStr (apply_context_extractors c (pyLower msg).data).customer.emirate ∧
        truthyInt (apply_context_extractors c (pyLower msg).data).customer.group_size ∧
        (¬ (apply_context_extractors c (pyLower msg).data).customer.interests.isEmpty ∨
          truthyStr (apply_context_extractors c (pyLower msg).data).customer.selected_tour) <;>
      simp [hcond, hace] <;> split_ifs <;> simp_all
  · intro slot rest h
    simp only [handle_gathering_info]
    rw [h]
    simp [gather_ask_head _ _ _ h]

/-- Witness for C1: an empty profile in GATHERING_INFO receiving a
greeting keeps its state and is asked for the region first. -/
theorem c1_gathering_witness :
    (update_conversation_state { state := .gathering_info } "привет").state =
        .gathering_info ∧
    (handle_gathering_info { state := .gathering_info } "привет" 2026 10).2 =
        .ask "emirate" := by
  have h := c1_gathering_transition_and_reply
    { state := .gathering_info } "привет" 2026 10 rfl
  refine ⟨?_, ?_⟩
  · have h1 := h.1 (by decide)
    rw [h1]
    decide
  · exact h.2 "emirate"
      ["travel_dates", "group_size", "trip_duration", "interests"]
      (by decide)

theorem state_value_roundtrip (st : ConversationState) :
    conversationStateOfValue st.value = some st := by
  cases st <;> rfl

theorem td_ser_deser (td : List (String × TDVal))
    (h : (td.all fun kv => match kv.2 with
      | .date _ => true
      | .dur _ => false) = true) :
    ∃ l, serializeTravelDates td = Except.ok l ∧
      (l.map fun kv => (kv.1, TDVal.date kv.2.fromisoformat)) = td := by
  induction td with
  | nil => exact ⟨[], rfl, rfl⟩
  | cons kv rest ih =>
      rcases kv with ⟨k, v⟩
      simp only [List.all_cons, Bool.and_eq_true] at h
      rcases v with d | n
      · obtain ⟨l, hl1, hl2⟩ := ih h.2
        refine ⟨(k, d.isoformat) :: l, ?_, ?_⟩
        · simp [serializeTravelDates, hl1, Except.map]
        · simp only [IsoStr.fromisoformat] at hl2
          simp [hl2, PyDateTime.isoformat, IsoStr.fromisoformat]
      · simp at h

/-- C5 counterexample: the round-trip does not reproduce an equal
customer profile — `to_dict` has no key for `interaction_history`, so a
record whose profile has one recorded interaction comes back with an
empty history and the profiles differ. -/
theorem c5_roundtrip_counterexample :
    context_roundtrip
      { customer :=
          { interaction_history := [⟨"message", ⟨0⟩, [("content", "hi")]⟩],
            last_interaction_time := some 0 } } 0 =
      Except.ok { customer := { last_interaction_time := some 0 } } ∧
    ({ customer :=
        { interaction_history := [⟨"message", ⟨0⟩, [("content", "hi")]⟩],
          last_interaction_time := some 0 } } :
        ConversationContext).customer ≠
      ({ customer := { last_interaction_time := some 0 } } :
        ConversationContext).customer := by
  refine ⟨rfl, by decide⟩

/-- C5 amended (corrected): for every record whose profile has a
well-formed `travel_dates` dict that is absent or non-empty (both
serialization directions test Python truthiness, so an empty dict is
normalized to `None` by the round-trip) and a set
`last_interaction_time`, serializing and deserializing reproduces an
equal state, message history, session bookkeeping and customer profile
**except** that `interaction_history` (which `to_dict` does not
serialize) comes back empty. -/
theorem c5_roundtrip_modulo_history (c : ConversationContext)
    (now t0 : PyDateTime)
    (hlit : c.customer.last_interaction_time = some t0)
    (htd : travelDatesWellFormed c.customer = true)
    (hne : c.customer.travel_dates ≠ some []) :
    context_roundtrip c now =
      Except.ok { c with customer :=
        { c.customer with interaction_history := [] } } := by
  unfold context_roundtrip ConversationContext.to_dict
    CustomerProfile.to_dict ConversationContext.from_dict
    CustomerProfile.from_dict
  rcases hc : c.customer.travel_dates with _ | td
  · simp [hc, hlit, state_value_roundtrip, Except.bind, Except.map,
      PyDateTime.isoformat, IsoStr.fromisoformat]
  · have htdne : td ≠ [] := by
      intro h
      rw [h] at hc
      exact hne hc
    have htd' : (td.all fun kv => match kv.2 with
        | .date _ => true
        | .dur _ => false) = true := by
      unfold travelDatesWellFormed at htd
      rw [hc] at htd
      exact htd
    obtain ⟨l, hl1, hl2⟩ := td_ser_deser td htd'
    have hlne : l ≠ [] := by
      intro h
      rw [h] at hl2
      exact htdne hl2.symm
    simp only [IsoStr.fromisoformat] at hl2
    simp [hc, hl1, hl2, hlit, htdne, hlne, state_value_roundtrip,
      Except.bind, Except.map, PyDateTime.isoformat, IsoStr.fromisoformat]

/-- Witness for C5: a concrete record with one travel date and a
non-empty history round-trips to the same record with the history
cleared. -/
theorem c5_roundtrip_witness :
    context_roundtrip
      { state := .booking,
        customer :=
          { emirate := some "dubai",
            travel_dates := some [("arrival", .date 7)],
            interaction_history := [⟨"message", ⟨1⟩, []⟩],
            last_interaction_time := some 5 },
        prev_messages := [("user", "привет")] } 9 =
      Except.ok
        { state := .booking,
          customer :=
            { emirate := some "dubai",
              travel_dates := some [("arrival", .date 7)],
              interaction_history := [],
              last_interaction_time := some 5 },
          prev_messages := [("user", "привет")] } :=
  c5_roundtrip_modulo_history
    { state := .booking,
      customer :=
        { emirate := some "dubai",
          travel_dates := some [("arrival", .date 7)],
          interaction_history := [⟨"message", ⟨1⟩, []⟩],
          last_interaction_time := some 5 },
      prev_messages := [("user", "привет")] } 9 5 rfl (by decide) (by decide)

/-- C7 (confirmed): every raise-point of the extraction pipeline is
inside a `try/except` of the source (mirrored here by `Option` results
consumed with a skip), so the embedded `_extract_information` and every
extractor it calls are total functions of the utterance; and whenever an
extractor finds no match on an arbitrary input string, the profile slot
it manages is left exactly unchanged. -/
theorem c7_no_match_no_update (p : CustomerProfile) (msg : String)
    (nowY nowM : Nat) :
    (extract_emirate (pyLower msg).data = none →
      (extract_information p msg nowY nowM).emirate = p.emirate) ∧
    (extract_group_size (pyLower msg).data = (none, none) →
      (extract_information p msg nowY nowM).group_size = p.group_size ∧
      (extract_information p msg nowY nowM).children_count =
        p.children_count) ∧
    (extract_children_ages (pyLower msg).data = [] →
      (extract_information p msg nowY nowM).children_ages =
        p.children_ages) ∧
    (extract_interests (pyLower msg).data = [] →
      (extract_information p msg nowY nowM).interests = p.interests) ∧
    (extract_travel_dates nowY nowM (pyLower msg).data = [] →
      (extract_information p msg nowY nowM).travel_dates =
        p.travel_dates) ∧
    (check_tour_selection (pyLower msg).data = none →
      (extract_information p msg nowY nowM).selected_tour =
        p.selected_tour) ∧
    (extract_budget_preference (pyLower msg).data = none →
      (extract_information p msg nowY nowM).budget_preference =
        p.budget_preference) := by
  refine ⟨?_, ?_, ?_, ?_, ?_, ?_, ?_⟩
  · intro h
    unfold extract_information
    rw [(ei_budget_other _ _).1, (ei_tour_other _ _).1,
      (ei_dates_other _ _ _ _).1, (ei_interests_other _ _).1,
      (ei_ages_other _ _).1, (ei_group_other _ _).1]
    unfold ei_emirate_step
    rw [h]
  · intro h
    constructor
    · unfold extract_information
      rw [(ei_budget_other _ _).2.1, (ei_tour_other _ _).2.1,
        (ei_dates_other _ _ _ _).2.1, (ei_interests_other _ _).2.1,
        (ei_ages_other _ _).2.1]
      unfold ei_group_step
      simp [h, (ei_emirate_other _ _).1]
    · unfold extract_information
      rw [(ei_budget_other _ _).2.2.1, (ei_tour_other _ _).2.2.1,
        (ei_dates_other _ _ _ _).2.2.1, (ei_interests_other _ _).2.2.1,
        (ei_ages_other _ _).2.2.1]
      unfold ei_group_step
      simp [h, (ei_emirate_other _ _).2.1]
  · intro h
    unfold extract_information
    rw [(ei_budget_other _ _).2.2.2.1, (ei_tour_other _ _).2.2.2.1,
      (ei_dates_other _ _ _ _).2.2.2.1, (ei_interests_other _ _).2.2.2.1]
    unfold ei_ages_step
    simp [h, (ei_group_other _ _).2.1, (ei_emirate_other _ _).2.2.1]
  · intro h
    unfold extract_information
    rw [(ei_budget_other _ _).2.2.2.2.1, (ei_tour_other _ _).2.2.2.2.1,
      (ei_dates_other _ _ _ _).2.2.2.2.1]
    unfold ei_interests_step
    simp [h, (ei_ages_other _ _).2.2.2.1, (ei_group_other _ _).2.2.1,
      (ei_emirate_other _ _).2.2.2.1]
  · intro h
    unfold extract_information
    rw [(ei_budget_other _ _).2.2.2.2.2.1, (ei_tour_other _ _).2.2.2.2.2.1]
    unfold ei_dates_step
    simp [h, (ei_interests_other _ _).2.2.2.2.1,
      (ei_ages_other _ _).2.2.2.2.1, (ei_group_other _ _).2.2.2.1,
      (ei_emirate_other _ _).2.2.2.2.1]
  · intro h
    unfold extract_information
    rw [(ei_budget_other _ _).2.2.2.2.2.2]
    unfold ei_tour_step
    simp [h, (ei_dates_other _ _ _ _).2.2.2.2.2.1,
      (ei_interests_other _ _).2.2.2.2.2.1,
      (ei_ages_other _ _).2.2.2.2.2.1, (ei_group_other _ _).2.2.2.2.1,
      (ei_emirate_other _ _).2.2.2.2.2.1]
  · intro h
    unfold extract_information ei_budget_step
    simp [h, (ei_tour_other _ _).2.2.2.2.2.2,
      (ei_dates_other _ _ _ _).2.2.2.2.2.2,
      (ei_interests_other _ _).2.2.2.2.2.2,
      (ei_ages_other _ _).2.2.2.2.2.2, (ei_group_other _ _).2.2.2.2.2,
      (ei_emirate_other _ _).2.2.2.2.2.2]

/-- Witness for C7: the utterance "qq" matches no extractor pattern and
the profile survives the whole pipeline unchanged in every slot. -/
theorem c7_no_match_no_update_witness :
    (extract_information { emirate := some "dubai" } "qq" 2026 10).emirate =
        some "dubai" ∧
    (extract_information { emirate := some "dubai" } "qq" 2026 10).group_size =
        none ∧
    (extract_information { emirate := some "dubai" } "qq" 2026 10).interests =
        [] := by
  have h := c7_no_match_no_update { emirate := some "dubai" } "qq" 2026 10
  exact ⟨h.1 (by decide), (h.2.1 (by decide)).1, h.2.2.2.1 (by decide)⟩

theorem initLLMLoop_fails (probe : String → Except LLMErr String)
    (hp : ∀ m, ∃ e, probe m = .error e) :
    ∀ (models : List String) (st : GenState),
      (initLLMLoop probe models st).2 = false := by
  intro models
  induction models with
  | nil => intro st; rfl
  | cons m rest ih =>
      intro st
      unfold initLLMLoop
      by_cases hm : m ∈ st.failed_models
      · simp [hm, ih]
      · obtain ⟨e, he⟩ := hp m
        simp [hm, he, ih]

theorem initialize_llm_fails (probe : String → Except LLMErr String)
    (hp : ∀ m, ∃ e, probe m = .error e) (st : GenState) :
    (initialize_llm probe st).2 = false := by
  unfold initialize_llm
  obtain ⟨e, he⟩ := hp "gpt-4o"
  rw [he]
  exact initLLMLoop_fails probe hp _ st

theorem chatgptAttempt_total_nonempty (probe : String → Except LLMErr String)
    (invoke : Except LLMErr String)
    (hp : ∀ m, ∃ e, probe m = .error e) (hi : ∃ e, invoke = .error e)
    (fuel : Nat) (st : GenState) :
    ∃ st' m, chatgptAttempt probe invoke fuel st = Except.ok (st', m) ∧
      m ∈ [msgUnavailable, msgRateLimit, msgConnection, msgGenericError] := by
  obtain ⟨e, he⟩ := hi
  subst he
  by_cases hg : st.use_chatgpt = true ∧ st.llm_initialized = true
  case neg =>
    refine ⟨st, msgUnavailable, ?_, by decide⟩
    unfold chatgptAttempt
    simp [hg]
  case pos =>
    cases e with
    | rateLimit =>
        refine ⟨st, msgRateLimit, ?_, by decide⟩
        unfold chatgptAttempt
        simp [hg]
    | apiError =>
        refine ⟨st, msgGenericError, ?_, by decide⟩
        unfold chatgptAttempt
        simp [hg]
    | requestException =>
        refine ⟨st, msgGenericError, ?_, by decide⟩
        unfold chatgptAttempt
        simp [hg]
    | apiTimeout =>
        cases hwm : st.working_model with
        | none =>
            refine ⟨st, msgConnection, ?_, by decide⟩
            unfold chatgptAttempt
            simp [hg, hwm]
        | some wm =>
            refine ⟨(initialize_llm probe
                { st with failed_models := st.failed_models ++ [wm] }).1,
              msgConnection, ?_, by decide⟩
            unfold chatgptAttempt
            simp [hg, hwm, initialize_llm_fails probe hp]
    | apiConnection =>
        cases hwm : st.working_model with
        | none =>
            refine ⟨st, msgConnection, ?_, by decide⟩
            unfold chatgptAttempt
            simp [hg, hwm]
        | some wm =>
            refine ⟨(initialize_llm probe
                { st with failed_models := st.failed_models ++ [wm] }).1,
              msgConnection, ?_, by decide⟩
            unfold chatgptAttempt
            simp [hg, hwm, initialize_llm_fails probe hp]

/-- C8 (confirmed, spec-modelled fallback): with a text-generation
collaborator that always fails (rate-limit, timeout or connection
error), the decorated completion makes at most 3 attempts and
`generate_response` still returns a non-empty reply — every failure
path inside the attempt body is caught and turned into a fixed fallback
string, and the outer template path (modelled from the spec) covers the
remaining configurations — so no exception escapes to the caller. -/
theorem c8_failing_collaborator_fallback
    (probe : String → Except LLMErr String) (invoke : Except LLMErr String)
    (st : GenState) (c : ConversationContext) (msg : String)
    (hp : ∀ m, ∃ e, probe m = .error e) (hi : ∃ e, invoke = .error e) :
    ¬ (generate_response probe invoke st c msg).1.isEmpty ∧
    (generate_response probe invoke st c msg).2 ≤ 3 := by
  unfold generate_response
  by_cases hg : st.use_chatgpt = true ∧ st.working_model.isSome = true ∧
      ¬ msg.isEmpty = true
  · obtain ⟨st', m, hr, hm⟩ :=
      chatgptAttempt_total_nonempty probe invoke hp hi 6 st
    have hloop : generate_chatgpt_response probe invoke st =
        (Except.ok (st', m), 1) := by
      unfold generate_chatgpt_response tenacityLoop
      rw [hr]
    have hne : ¬ m.isEmpty := by
      simp only [List.mem_cons, List.not_mem_nil, or_false] at hm
      rcases hm with rfl | rfl | rfl | rfl <;> decide
    simp [hg, hloop, hne]
  · simp only [hg, if_false]
    refine ⟨by unfold template_fallback; decide, by simp⟩

/-- Witness for C8: a collaborator that always times out yields the
connection-fallback reply on the first attempt and nothing escapes. -/
theorem c8_failing_collaborator_witness :
    ¬ (generate_response (fun _ => .error .apiTimeout)
        (.error .apiTimeout)
        { use_chatgpt := true, llm_initialized := true,
          working_model := some "gpt-4o", failed_models := [] }
        {} "привет").1.isEmpty ∧
    (generate_response (fun _ => .error .apiTimeout)
        (.error .apiTimeout)
        { use_chatgpt := true, llm_initialized := true,
          working_model := some "gpt-4o", failed_models := [] }
        {} "привет").2 ≤ 3 :=
  c8_failing_collaborator_fallback (fun _ => .error .apiTimeout)
    (.error .apiTimeout)
    { use_chatgpt := true, llm_initialized := true,
      working_model := some "gpt-4o", failed_models := [] }
    {} "привет" (fun _ => ⟨.apiTimeout, rfl⟩) ⟨.apiTimeout, rfl⟩

theorem pySortDesc3_pairwise (a b c : Nat) (i1 i2 i3 : TourInfo) :
    List.Pairwise
      (fun x y : RecEntry => y.score < x.score ∨
        (x.score = y.score ∧ declIdx x.id < declIdx y.id))
      (pySortDesc
        [{ id := "desert_safari", score := a, info := i1 },
         { id := "dubai_city_tour", score := b, info := i2 },
         { id := "night_cruise", score := c, info := i3 }]) := by
  unfold pySortDesc
  simp only [List.insertionSort, List.orderedInsert]
  split_ifs <;>
    simp_all [List.pairwise_cons, declIdx] <;>
    first
      | omega
      | (split_ifs <;> simp_all [List.pairwise_cons, declIdx] <;> omega)

/-- C6 counterexample: the claim's scoring rule awards +1 when the
profile field `trip_duration` is at least 3 and the package is
adventure-tagged; the code instead recomputes the difference of the raw
travel dates and ignores the `trip_duration` field.  For a profile with
`trip_duration = 5` and no raw travel dates, the spec-stated rule gives
the desert safari 1 point but the code scores it 0.  (The thresholds are
also hardcoded 500/1000 constants over a hardcoded three-tour table, not
catalog-defined.) -/
theorem c6_trip_duration_field_ignored :
    scoreFor { trip_duration := some 5 } "desert_safari" = some 0 ∧
    (recommendationTours.map fun kv =>
        specClaimScore { trip_duration := some 5 } kv.2) = [1, 0, 0] := by
  refine ⟨by decide, by decide⟩

/-- C6 amended (corrected): for every profile, `_get_recommendations`
scores its three hardcoded tours (+1 per matching interest tag, +1 on
the hardcoded 500/1000 price band of the budget tier, +1 for groups
above 2 on family-tagged tours, +1 on adventure-tagged tours when the
raw travel-date difference is at least 3 days) and returns them sorted
strictly by descending score with ties in declaration order (a stable
sort), as a permutation of the scored declaration list; the function is
pure, so identical inputs give identical output lists. -/
theorem c6_scorer_stable_descending (customer : CustomerProfile) :
    List.Pairwise
      (fun x y : RecEntry => y.score < x.score ∨
        (x.score = y.score ∧ declIdx x.id < declIdx y.id))
      (get_recommendations customer) ∧
    (get_recommendations customer).Perm
      (recommendationTours.map fun kv =>
        { id := kv.1, score := scoreTour customer kv.2, info := kv.2 }) ∧
    ∀ r ∈ get_recommendations customer,
      r.score = scoreTour customer r.info := by
  refine ⟨?_, ?_, ?_⟩
  · unfold get_recommendations recommendationTours
    simp only [List.map]
    exact pySortDesc3_pairwise _ _ _ _ _ _
  · unfold get_recommendations pySortDesc
    exact List.perm_insertionSort _ _
  · intro r hr
    unfold get_recommendations pySortDesc at hr
    have hmem := (List.perm_insertionSort
      (fun a b : RecEntry => b.score ≤ a.score)
      (recommendationTours.map fun kv =>
        { id := kv.1, score := scoreTour customer kv.2,
          info := kv.2 })).mem_iff.mp hr
    simp only [recommendationTours, List.map, List.mem_cons,
      List.not_mem_nil, or_false] at hmem
    rcases hmem with rfl | rfl | rfl <;> rfl
